import Mathlib

/-!
# Verification of the virtio MMIO transport (src/devices/src/virtio/mmio.rs)

A shallow embedding of the MMIO transport of this repository.  Machine
integers are modelled as `Nat` with explicit truncation (`% 2^w`) where the
source truncates; guest-physical addresses (`u64`) and register values
(`u32`) are `Nat`.  The `VirtioDevice` backend is an external capability:
its query methods (`device_type`, `queue_max_sizes`, `features`,
`read_config`) are modelled as pure functions and its mutating methods
(`ack_features`, `write_config`, `activate`) are recorded in an explicit
call log, so that theorems can talk about exactly which calls the transport
made and with which arguments.
-/

/-- Little-endian decoding of a 4-byte buffer, as `byteorder`'s
`LittleEndian::read_u32` (each byte is reduced mod 256, as a `u8` is). -/
def le32Read (data : List Nat) : Nat :=
  match data with
  | b0 :: b1 :: b2 :: b3 :: _ =>
      b0 % 256 + 256 * (b1 % 256) + 65536 * (b2 % 256) + 16777216 * (b3 % 256)
  | _ => 0

/-- Little-endian encoding of a `u32` into a 4-byte buffer, as
`LittleEndian::write_u32`. -/
def le32Write (v : Nat) : List Nat :=
  [v % 256, v / 256 % 256, v / 65536 % 256, v / 16777216 % 256]

/-- An eventfd handle (`sys_util::EventFd`).  For the transport the handle is
an opaque token; only its identity matters (who owns it, where it is moved).
The kernel counter behind it is modelled separately (`EventFdCounter`). -/
structure EventFd where
  id : Nat
deriving DecidableEq, Repr

/-- A guest memory handle (`sys_util::GuestMemory`), an external collaborator
consumed as an opaque randomly-addressable region.  `spanBacked a n` is the
point-validity query: whether the `(address, length)` span `(a, n)` is
entirely backed by guest memory. -/
structure GuestMemory where
  spanBacked : Nat → Nat → Bool

/-- Virtqueue descriptor (`virtio::Queue`, a pure data record per the spec).
`max_size` and `size` are `u16`; the three ring addresses are `u64`
guest-physical addresses assembled from independent 32-bit halves. -/
structure Queue where
  max_size : Nat
  size : Nat
  ready : Bool
  desc_table : Nat
  avail_ring : Nat
  used_ring : Nat
deriving DecidableEq, Repr

/-- Modelled from the spec: `Queue::new` (src/devices/src/virtio/queue.rs is
not among the provided sources).  "Constructor takes `max_size` and sets
`size = max_size`, `ready = false`, all ring addresses zero." -/
def Queue.new (max_size : Nat) : Queue :=
  { max_size := max_size
    size := max_size
    ready := false
    desc_table := 0
    avail_ring := 0
    used_ring := 0 }

/-- `n` is a nonzero power of two, computed as the usual bit trick. -/
def isPow2 (n : Nat) : Bool :=
  n != 0 && n &&& (n - 1) == 0

/-- Modelled from the spec: `Queue::is_valid` (src/devices/src/virtio/queue.rs
is not among the provided sources).  "A descriptor is valid iff `size` is a
power of two, `size ≤ max_size`, `size > 0`, all three ring addresses are
non-zero and their ring-derived spans lie within guest memory, with the
natural alignment required by each ring structure."  The ring-derived spans
are the virtio 1.0 ring layouts: descriptor table `16 * size` bytes aligned
to 16, available ring `6 + 2 * size` bytes aligned to 2, used ring
`6 + 8 * size` bytes aligned to 4. -/
def Queue.is_valid (q : Queue) (mem : GuestMemory) : Bool :=
  isPow2 q.size && decide (0 < q.size) && decide (q.size ≤ q.max_size) &&
  q.desc_table != 0 && q.desc_table % 16 == 0 &&
    mem.spanBacked q.desc_table (16 * q.size) &&
  q.avail_ring != 0 && q.avail_ring % 2 == 0 &&
    mem.spanBacked q.avail_ring (6 + 2 * q.size) &&
  q.used_ring != 0 && q.used_ring % 4 == 0 &&
    mem.spanBacked q.used_ring (6 + 8 * q.size)

/-- The pure face of the `VirtioDevice` capability: the backend's query
methods, modelled as functions that the transport's reads consult.
`read_config off buf` returns the buffer after the backend's
`read_config(off, buf)` filled it. -/
structure VirtioDevice where
  device_type : Nat
  queue_max_sizes : List Nat
  features : Nat → Nat
  read_config : Nat → List Nat → List Nat

/-- A mutating call the transport made into the `VirtioDevice` backend,
with the exact arguments passed. -/
inductive DeviceCall where
  | ackFeatures (page : Nat) (value : Nat)
  | writeConfig (offset : Nat) (data : List Nat)
  | activate (mem : GuestMemory) (interrupt_evt : EventFd)
      (interrupt_status : Nat) (queues : List Queue) (queue_evts : List EventFd)

/-- Whether a backend call is an `activate` call. -/
def DeviceCall.isActivate : DeviceCall → Bool
  | .activate _ _ _ _ _ => true
  | _ => false

/-- The number of `activate` calls in a backend call log. -/
def countActivate (l : List DeviceCall) : Nat :=
  (l.filter DeviceCall.isActivate).length

/-- The MMIO transport state (`MmioDevice` in mmio.rs).  `device` holds the
backend's pure query functions; `device_calls` is the log of mutating calls
into the backend, most recent first.  `interrupt_status` is the value of the
shared `Arc<AtomicUsize>` word (a `usize`, 64-bit). -/
structure MmioDevice where
  device : VirtioDevice
  device_calls : List DeviceCall
  device_activated : Bool
  features_select : Nat
  acked_features_select : Nat
  queue_select : Nat
  interrupt_status : Nat
  interrupt_evt : Option EventFd
  driver_status : Nat
  config_generation : Nat
  queues : List Queue
  queue_evts : List EventFd
  mem : Option GuestMemory

/-- `MmioDevice::new`: one fresh eventfd per entry of `queue_max_sizes`, one
fresh interrupt eventfd, queues built with `Queue::new` from the max sizes,
everything else zeroed, `mem` held.  Fresh eventfd handles are numbered
`0, 1, ...` in creation order. -/
def MmioDevice.new (mem : GuestMemory) (device : VirtioDevice) : MmioDevice :=
  { device := device
    device_calls := []
    device_activated := false
    features_select := 0
    acked_features_select := 0
    queue_select := 0
    interrupt_status := 0
    interrupt_evt := some ⟨device.queue_max_sizes.length⟩
    driver_status := 0
    config_generation := 0
    queues := device.queue_max_sizes.map Queue.new
    queue_evts := (List.range device.queue_max_sizes.length).map EventFd.mk
    mem := some mem }

/-- Driver-status bit `ACKNOWLEDGE`.  Modelled from the spec (the constant
lives in src/devices/src/virtio/mod.rs, not among the provided sources):
"ACKNOWLEDGE 0x01". -/
def DEVICE_ACKNOWLEDGE : Nat := 0x01

/-- Driver-status bit `DRIVER` (0x02), modelled from the spec as above. -/
def DEVICE_DRIVER : Nat := 0x02

/-- Driver-status bit `DRIVER_OK` (0x04), modelled from the spec as above. -/
def DEVICE_DRIVER_OK : Nat := 0x04

/-- Driver-status bit `FEATURES_OK` (0x08), modelled from the spec as above. -/
def DEVICE_FEATURES_OK : Nat := 0x08

/-- Driver-status bit `FAILED` (0x80), modelled from the spec as above. -/
def DEVICE_FAILED : Nat := 0x80

/-- `MmioDevice::is_driver_ready` (mmio.rs lines 89-92). -/
def MmioDevice.is_driver_ready (st : MmioDevice) : Bool :=
  st.driver_status ==
      (DEVICE_ACKNOWLEDGE ||| DEVICE_DRIVER ||| DEVICE_DRIVER_OK ||| DEVICE_FEATURES_OK)
    && st.driver_status &&& DEVICE_FAILED == 0

/-- `MmioDevice::are_queues_valid` (mmio.rs lines 94-100). -/
def MmioDevice.are_queues_valid (st : MmioDevice) : Bool :=
  match st.mem with
  | some mem => st.queues.all (fun q => q.is_valid mem)
  | none => false

/-- `MmioDevice::with_queue` (mmio.rs lines 102-110): apply `f` to the queue
selected by `queue_select`, or return the default `d` if out of range. -/
def MmioDevice.with_queue {α : Type} (st : MmioDevice) (d : α) (f : Queue → α) : α :=
  match st.queues[st.queue_select]? with
  | some q => f q
  | none => d

/-- `MmioDevice::with_queue_mut` (mmio.rs lines 112-119): mutate the selected
queue in place; out-of-range selects leave the queue list untouched. -/
def MmioDevice.with_queue_mut (st : MmioDevice) (f : Queue → Queue) : MmioDevice :=
  match st.queues[st.queue_select]? with
  | some q => { st with queues := st.queues.set st.queue_select (f q) }
  | none => st

/-- The `lo` helper in `BusDevice::write` (mmio.rs lines 163-165): replace
the low 32 bits of a `u64` guest address. -/
def addr_lo (v x : Nat) : Nat :=
  (v &&& (0xffffffffffffffff ^^^ 0xffffffff)) ||| x

/-- The `hi` helper in `BusDevice::write` (mmio.rs lines 159-161): replace
the high 32 bits of a `u64` guest address. -/
def addr_hi (v x : Nat) : Nat :=
  (v &&& 0xffffffff) ||| (x <<< 32)

/-- Register 0x14 (mmio.rs line 172): set `features_select`. -/
def MmioDevice.wrFeaturesSelect (st : MmioDevice) (v : Nat) : MmioDevice :=
  { st with features_select := v }

/-- Register 0x20 (mmio.rs line 173): forward
`ack_features(acked_features_select, v)` to the backend. -/
def MmioDevice.wrAckFeatures (st : MmioDevice) (v : Nat) : MmioDevice :=
  { st with device_calls :=
      DeviceCall.ackFeatures st.acked_features_select v :: st.device_calls }

/-- Register 0x24 (mmio.rs line 174): set `acked_features_select`. -/
def MmioDevice.wrAckedFeaturesSelect (st : MmioDevice) (v : Nat) : MmioDevice :=
  { st with acked_features_select := v }

/-- Register 0x30 (mmio.rs line 175): set `queue_select`. -/
def MmioDevice.wrQueueSelect (st : MmioDevice) (v : Nat) : MmioDevice :=
  { st with queue_select := v }

/-- Register 0x64 (mmio.rs lines 178-181): `fetch_and` of the `usize`
interrupt-status word with the complement of the written `u32`. -/
def MmioDevice.wrInterruptAck (st : MmioDevice) (v : Nat) : MmioDevice :=
  { st with interrupt_status := st.interrupt_status &&& (0xffffffffffffffff ^^^ v) }

/-- Register 0x70 (mmio.rs line 182): set `driver_status`. -/
def MmioDevice.wrDriverStatus (st : MmioDevice) (v : Nat) : MmioDevice :=
  { st with driver_status := v }

/-- The register dispatch of `BusDevice::write` (mmio.rs lines 171-193) for a
4-byte write of value `v` to `offset` in `0x00..=0xff`: `some st'` when the
register is recognised (so control reaches the activation check at the end of
`write`), `none` on the unknown-register arm, which warns and returns early. -/
def MmioDevice.write_reg (st : MmioDevice) (offset v : Nat) : Option MmioDevice :=
  if offset = 0x14 then some (st.wrFeaturesSelect v)
  else if offset = 0x20 then some (st.wrAckFeatures v)
  else if offset = 0x24 then some (st.wrAckedFeaturesSelect v)
  else if offset = 0x30 then some (st.wrQueueSelect v)
  else if offset = 0x38 then some (st.with_queue_mut (fun q => { q with size := v % 65536 }))
  else if offset = 0x44 then some (st.with_queue_mut (fun q => { q with ready := v == 1 }))
  else if offset = 0x64 then some (st.wrInterruptAck v)
  else if offset = 0x70 then some (st.wrDriverStatus v)
  else if offset = 0x80 then some (st.with_queue_mut (fun q => { q with desc_table := addr_lo q.desc_table v }))
  else if offset = 0x84 then some (st.with_queue_mut (fun q => { q with desc_table := addr_hi q.desc_table v }))
  else if offset = 0x90 then some (st.with_queue_mut (fun q => { q with avail_ring := addr_lo q.avail_ring v }))
  else if offset = 0x94 then some (st.with_queue_mut (fun q => { q with avail_ring := addr_hi q.avail_ring v }))
  else if offset = 0xa0 then some (st.with_queue_mut (fun q => { q with used_ring := addr_lo q.used_ring v }))
  else if offset = 0xa4 then some (st.with_queue_mut (fun q => { q with used_ring := addr_hi q.used_ring v }))
  else none

/-- The activation check at the end of `BusDevice::write` (mmio.rs lines
210-223).  Note `interrupt_evt.take()` empties the field even in the (dead)
case where `mem` turns out to be absent. -/
def MmioDevice.check_activation (st : MmioDevice) : MmioDevice :=
  if !st.device_activated && st.is_driver_ready && st.are_queues_valid then
    match st.interrupt_evt, st.mem with
    | some interrupt_evt, some mem =>
        { st with
          device_calls :=
            DeviceCall.activate mem interrupt_evt st.interrupt_status
              st.queues st.queue_evts :: st.device_calls
          device_activated := true
          interrupt_evt := none
          mem := none
          queue_evts := [] }
    | some _, none => { st with interrupt_evt := none }
    | none, _ => st
  else st

/-- `BusDevice::write` for `MmioDevice` (mmio.rs lines 158-224).  A 4-byte
write to a recognised register in `0x00..=0xff` mutates that register and
then runs the activation check; unknown registers, wrong-width accesses and
out-of-range offsets return early; `0x100..=0xfff` forwards to the backend's
config space with the offset rebased. -/
def MmioDevice.write (st : MmioDevice) (offset : Nat) (data : List Nat) : MmioDevice :=
  if offset ≤ 0xff ∧ data.length = 4 then
    match st.write_reg offset (le32Read data) with
    | some st' => st'.check_activation
    | none => st
  else if 0x100 ≤ offset ∧ offset ≤ 0xfff then
    { st with device_calls :=
        DeviceCall.writeConfig (offset - 0x100) data :: st.device_calls }
  else st

/-- `VENDOR_ID` (mmio.rs line 14). -/
def VENDOR_ID : Nat := 0

/-- `MMIO_MAGIC_VALUE` (mmio.rs line 16). -/
def MMIO_MAGIC_VALUE : Nat := 0x74726976

/-- `MMIO_VERSION` (mmio.rs line 17). -/
def MMIO_VERSION : Nat := 2

/-- The register dispatch of `BusDevice::read` (mmio.rs lines 126-144) for a
4-byte read at `offset` in `0x00..=0xff`: the `u32` value the register
yields, or `none` on the unknown-register arm (which warns and returns early,
leaving the buffer untouched).  Reading 0x60 truncates the `usize`
interrupt-status word to `u32`. -/
def MmioDevice.read_reg (st : MmioDevice) (offset : Nat) : Option Nat :=
  if offset = 0x0 then some MMIO_MAGIC_VALUE
  else if offset = 0x04 then some MMIO_VERSION
  else if offset = 0x08 then some st.device.device_type
  else if offset = 0x0c then some VENDOR_ID
  else if offset = 0x10 then
    some (st.device.features st.features_select |||
      (if st.features_select = 1 then 0x1 else 0x0))
  else if offset = 0x34 then some (st.with_queue 0 (fun q => q.max_size))
  else if offset = 0x44 then some (st.with_queue 0 (fun q => if q.ready then 1 else 0))
  else if offset = 0x60 then some (st.interrupt_status % 4294967296)
  else if offset = 0x70 then some st.driver_status
  else if offset = 0xfc then some st.config_generation
  else none

/-- `BusDevice::read` for `MmioDevice` (mmio.rs lines 123-156), as the buffer
it leaves behind.  `read` mutates no transport field: a 4-byte read of a
recognised register overwrites the buffer with the little-endian value;
anything else in the register region leaves the buffer as the caller passed
it; `0x100..=0xfff` is filled by the backend's `read_config`. -/
def MmioDevice.read (st : MmioDevice) (offset : Nat) (data : List Nat) : List Nat :=
  if offset ≤ 0xff ∧ data.length = 4 then
    match st.read_reg offset with
    | some v => le32Write v
    | none => data
  else if 0x100 ≤ offset ∧ offset ≤ 0xfff then
    st.device.read_config (offset - 0x100) data
  else data

/-- A bus access: the two operations of the `BusDevice` contract. -/
inductive Op where
  | read (offset : Nat) (data : List Nat)
  | write (offset : Nat) (data : List Nat)

/-- One bus access applied to the transport state.  `BusDevice::read` takes
`&mut self` but assigns no transport field, so it leaves the state unchanged;
`BusDevice::write` is `MmioDevice.write`. -/
def MmioDevice.step (st : MmioDevice) : Op → MmioDevice
  | .read _ _ => st
  | .write offset data => st.write offset data

/-- A sequence of bus accesses applied in order. -/
def MmioDevice.run (st : MmioDevice) (ops : List Op) : MmioDevice :=
  ops.foldl MmioDevice.step st

/-- The transport invariant of the spec (I2, I3, I4): before activation the
queue and eventfd sequences are aligned and no `activate` call has been made;
after activation `mem` and `interrupt_evt` are absent, `queue_evts` is empty,
and exactly one `activate` call has been made. -/
def MmioInv (st : MmioDevice) : Prop :=
  (st.device_activated = false →
    st.queues.length = st.queue_evts.length ∧ countActivate st.device_calls = 0) ∧
  (st.device_activated = true →
    st.mem = none ∧ st.interrupt_evt = none ∧ st.queue_evts = [] ∧
      countActivate st.device_calls = 1)

/-- Modelled from the spec: the kernel counter behind `sys_util::EventFd`
(src/sys_util/src/eventfd.rs wraps the `eventfd`/`read`/`write` syscalls; the
counter itself lives in the kernel).  "A 64-bit non-negative counter";
"`signal(v)` adds v to the counter (blocks if it would overflow)"; the
counter "never exceeds 2⁶⁴−2 (kernel enforces)".  The counter is the `Nat`
value; `some` is a completed call, `none` a call that blocks. -/
def EventFdCounter.write (count v : Nat) : Option Nat :=
  if count + v ≤ 2 ^ 64 - 2 then some (count + v) else none

/-- Modelled from the spec, as above: "`wait()` blocks until counter > 0 then
atomically resets it to 0 and returns the prior value".  The result pairs the
returned value with the counter left behind. -/
def EventFdCounter.read (count : Nat) : Option (Nat × Nat) :=
  if 0 < count then some (count, 0) else none

/-- A small backend used to instantiate the theorems on concrete inputs:
one queue of max size 16. -/
def sampleDevice : VirtioDevice :=
  { device_type := 1
    queue_max_sizes := [16]
    features := fun _ => 0
    read_config := fun _ d => d }

/-- A guest memory in which every span is backed. -/
def sampleMem : GuestMemory := ⟨fun _ _ => true⟩

/-- A transport state one status write away from activation: the single queue
is fully configured and valid, the driver status still lacks `DRIVER_OK`. -/
def readyState : MmioDevice :=
  { device := sampleDevice
    device_calls := []
    device_activated := false
    features_select := 0
    acked_features_select := 0
    queue_select := 0
    interrupt_status := 0
    interrupt_evt := some ⟨1⟩
    driver_status := 0x0b
    config_generation := 0
    queues := [⟨16, 16, true, 0x1000, 0x2000, 0x3000⟩]
    queue_evts := [⟨0⟩]
    mem := some sampleMem }

/-- `readyState` after the register mutation of a write of `0x0f` to 0x70. -/
def readyStateOk : MmioDevice := { readyState with driver_status := 0x0f }

/-- The S2 "activation happy path" write sequence of the spec. -/
def sampleOps : List Op :=
  [Op.write 0x14 (le32Write 0), Op.write 0x20 (le32Write 0),
   Op.write 0x24 (le32Write 0), Op.write 0x20 (le32Write 0),
   Op.write 0x70 (le32Write 0x01), Op.write 0x70 (le32Write 0x03),
   Op.write 0x30 (le32Write 0), Op.write 0x38 (le32Write 16),
   Op.write 0x80 (le32Write 0x1000), Op.write 0x84 (le32Write 0),
   Op.write 0x90 (le32Write 0x2000), Op.write 0x94 (le32Write 0),
   Op.write 0xa0 (le32Write 0x3000), Op.write 0xa4 (le32Write 0),
   Op.write 0x44 (le32Write 1), Op.write 0x70 (le32Write 0x0b),
   Op.write 0x70 (le32Write 0x0f)]

/-- A fresh transport with two interrupt-status bits raised, as in scenario
S6 of the spec. -/
def intrState : MmioDevice :=
  { MmioDevice.new sampleMem sampleDevice with interrupt_status := 3 }

/-- A fresh transport whose `queue_select` points past the single queue. -/
def oobState : MmioDevice :=
  { MmioDevice.new sampleMem sampleDevice with queue_select := 5 }

/-- The per-queue mutation each queue register write performs (the closures
passed to `with_queue_mut` in mmio.rs lines 176-188), keyed by offset. -/
def queueRegUpdate (off v : Nat) (q : Queue) : Queue :=
  if off = 0x38 then { q with size := v % 65536 }
  else if off = 0x44 then { q with ready := v == 1 }
  else if off = 0x80 then { q with desc_table := addr_lo q.desc_table v }
  else if off = 0x84 then { q with desc_table := addr_hi q.desc_table v }
  else if off = 0x90 then { q with avail_ring := addr_lo q.avail_ring v }
  else if off = 0x94 then { q with avail_ring := addr_hi q.avail_ring v }
  else if off = 0xa0 then { q with used_ring := addr_lo q.used_ring v }
  else { q with used_ring := addr_hi q.used_ring v }

/-- A transport state just after activation: the backend holds its snapshot,
the transport keeps its own (now stale) queue record. -/
def postActState : MmioDevice :=
  { device := sampleDevice
    device_calls := [DeviceCall.activate sampleMem ⟨1⟩ 0
      [⟨16, 16, true, 0x1000, 0x2000, 0x3000⟩] [⟨0⟩]]
    device_activated := true
    features_select := 0
    acked_features_select := 0
    queue_select := 0
    interrupt_status := 0
    interrupt_evt := none
    driver_status := 0x0f
    config_generation := 0
    queues := [⟨16, 16, true, 0x1000, 0x2000, 0x3000⟩]
    queue_evts := []
    mem := none }

@[simp] theorem countActivate_nil : countActivate [] = 0 := rfl

@[simp] theorem countActivate_cons_ackFeatures (p v : Nat) (l : List DeviceCall) :
    countActivate (DeviceCall.ackFeatures p v :: l) = countActivate l := by
  simp [countActivate, DeviceCall.isActivate, List.filter]

@[simp] theorem countActivate_cons_writeConfig (off : Nat) (d : List Nat) (l : List DeviceCall) :
    countActivate (DeviceCall.writeConfig off d :: l) = countActivate l := by
  simp [countActivate, DeviceCall.isActivate, List.filter]

@[simp] theorem countActivate_cons_activate (m : GuestMemory) (e : EventFd) (s : Nat)
    (qs : List Queue) (es : List EventFd) (l : List DeviceCall) :
    countActivate (DeviceCall.activate m e s qs es :: l) = countActivate l + 1 := by
  simp [countActivate, DeviceCall.isActivate, List.filter]

theorem with_queue_mut_frame (st : MmioDevice) (f : Queue → Queue) :
    (st.with_queue_mut f).device = st.device ∧
    (st.with_queue_mut f).device_calls = st.device_calls ∧
    (st.with_queue_mut f).device_activated = st.device_activated ∧
    (st.with_queue_mut f).features_select = st.features_select ∧
    (st.with_queue_mut f).acked_features_select = st.acked_features_select ∧
    (st.with_queue_mut f).queue_select = st.queue_select ∧
    (st.with_queue_mut f).interrupt_status = st.interrupt_status ∧
    (st.with_queue_mut f).interrupt_evt = st.interrupt_evt ∧
    (st.with_queue_mut f).driver_status = st.driver_status ∧
    (st.with_queue_mut f).config_generation = st.config_generation ∧
    (st.with_queue_mut f).queues.length = st.queues.length ∧
    (st.with_queue_mut f).queue_evts = st.queue_evts ∧
    (st.with_queue_mut f).mem = st.mem := by
  unfold MmioDevice.with_queue_mut
  split <;> simp

theorem write_reg_eq_cases {st st' : MmioDevice} {off v : Nat}
    (h : st.write_reg off v = some st') :
    (off = 0x14 ∧ st' = st.wrFeaturesSelect v) ∨
    (off = 0x20 ∧ st' = st.wrAckFeatures v) ∨
    (off = 0x24 ∧ st' = st.wrAckedFeaturesSelect v) ∨
    (off = 0x30 ∧ st' = st.wrQueueSelect v) ∨
    (off = 0x38 ∧ st' = st.with_queue_mut (fun q => { q with size := v % 65536 })) ∨
    (off = 0x44 ∧ st' = st.with_queue_mut (fun q => { q with ready := v == 1 })) ∨
    (off = 0x64 ∧ st' = st.wrInterruptAck v) ∨
    (off = 0x70 ∧ st' = st.wrDriverStatus v) ∨
    (off = 0x80 ∧ st' = st.with_queue_mut (fun q => { q with desc_table := addr_lo q.desc_table v })) ∨
    (off = 0x84 ∧ st' = st.with_queue_mut (fun q => { q with desc_table := addr_hi q.desc_table v })) ∨
    (off = 0x90 ∧ st' = st.with_queue_mut (fun q => { q with avail_ring := addr_lo q.avail_ring v })) ∨
    (off = 0x94 ∧ st' = st.with_queue_mut (fun q => { q with avail_ring := addr_hi q.avail_ring v })) ∨
    (off = 0xa0 ∧ st' = st.with_queue_mut (fun q => { q with used_ring := addr_lo q.used_ring v })) ∨
    (off = 0xa4 ∧ st' = st.with_queue_mut (fun q => { q with used_ring := addr_hi q.used_ring v })) := by
  unfold MmioDevice.write_reg at h
  by_cases e0 : off = 0x14
  · rw [if_pos e0] at h
    exact Or.inl ⟨e0, (Option.some.inj h).symm⟩
  rw [if_neg e0] at h
  by_cases e1 : off = 0x20
  · rw [if_pos e1] at h
    exact Or.inr (Or.inl ⟨e1, (Option.some.inj h).symm⟩)
  rw [if_neg e1] at h
  by_cases e2 : off = 0x24
  · rw [if_pos e2] at h
    exact Or.inr (Or.inr (Or.inl ⟨e2, (Option.some.inj h).symm⟩))
  rw [if_neg e2] at h
  by_cases e3 : off = 0x30
  · rw [if_pos e3] at h
    exact Or.inr (Or.inr (Or.inr (Or.inl ⟨e3, (Option.some.inj h).symm⟩)))
  rw [if_neg e3] at h
  by_cases e4 : off = 0x38
  · rw [if_pos e4] at h
    exact Or.inr (Or.inr (Or.inr (Or.inr (Or.inl ⟨e4, (Option.some.inj h).symm⟩))))
  rw [if_neg e4] at h
  by_cases e5 : off = 0x44
  · rw [if_pos e5] at h
    exact Or.inr (Or.inr (Or.inr (Or.inr (Or.inr (Or.inl ⟨e5, (Option.some.inj h).symm⟩)))))
  rw [if_neg e5] at h
  by_cases e6 : off = 0x64
  · rw [if_pos e6] at h
    exact Or.inr (Or.inr (Or.inr (Or.inr (Or.inr (Or.inr (Or.inl ⟨e6, (Option.some.inj h).symm⟩))))))
  rw [if_neg e6] at h
  by_cases e7 : off = 0x70
  · rw [if_pos e7] at h
    exact Or.inr (Or.inr (Or.inr (Or.inr (Or.inr (Or.inr (Or.inr (Or.inl ⟨e7, (Option.some.inj h).symm⟩)))))))
  rw [if_neg e7] at h
  by_cases e8 : off = 0x80
  · rw [if_pos e8] at h
    exact Or.inr (Or.inr (Or.inr (Or.inr (Or.inr (Or.inr (Or.inr (Or.inr (Or.inl ⟨e8, (Option.some.inj h).symm⟩))))))))
  rw [if_neg e8] at h
  by_cases e9 : off = 0x84
  · rw [if_pos e9] at h
    exact Or.inr (Or.inr (Or.inr (Or.inr (Or.inr (Or.inr (Or.inr (Or.inr (Or.inr (Or.inl ⟨e9, (Option.some.inj h).symm⟩)))))))))
  rw [if_neg e9] at h
  by_cases e10 : off = 0x90
  · rw [if_pos e10] at h
    exact Or.inr (Or.inr (Or.inr (Or.inr (Or.inr (Or.inr (Or.inr (Or.inr (Or.inr (Or.inr (Or.inl ⟨e10, (Option.some.inj h).symm⟩))))))))))
  rw [if_neg e10] at h
  by_cases e11 : off = 0x94
  · rw [if_pos e11] at h
    exact Or.inr (Or.inr (Or.inr (Or.inr (Or.inr (Or.inr (Or.inr (Or.inr (Or.inr (Or.inr (Or.inr (Or.inl ⟨e11, (Option.some.inj h).symm⟩)))))))))))
  rw [if_neg e11] at h
  by_cases e12 : off = 0xa0
  · rw [if_pos e12] at h
    exact Or.inr (Or.inr (Or.inr (Or.inr (Or.inr (Or.inr (Or.inr (Or.inr (Or.inr (Or.inr (Or.inr (Or.inr (Or.inl ⟨e12, (Option.some.inj h).symm⟩))))))))))))
  rw [if_neg e12] at h
  by_cases e13 : off = 0xa4
  · rw [if_pos e13] at h
    exact Or.inr (Or.inr (Or.inr (Or.inr (Or.inr (Or.inr (Or.inr (Or.inr (Or.inr (Or.inr (Or.inr (Or.inr (Or.inr (⟨e13, (Option.some.inj h).symm⟩)))))))))))))
  rw [if_neg e13] at h
  exact absurd h (by simp)

theorem write_reg_offset_le {st st' : MmioDevice} {off v : Nat}
    (h : st.write_reg off v = some st') : off ≤ 0xff := by
  rcases write_reg_eq_cases h with
    ⟨e, _⟩ | ⟨e, _⟩ | ⟨e, _⟩ | ⟨e, _⟩ | ⟨e, _⟩ | ⟨e, _⟩ | ⟨e, _⟩ | ⟨e, _⟩ |
    ⟨e, _⟩ | ⟨e, _⟩ | ⟨e, _⟩ | ⟨e, _⟩ | ⟨e, _⟩ | ⟨e, _⟩ <;> omega

theorem write_reg_frame {st st' : MmioDevice} {off v : Nat}
    (h : st.write_reg off v = some st') :
    st'.device = st.device ∧
    st'.device_activated = st.device_activated ∧
    st'.interrupt_evt = st.interrupt_evt ∧
    st'.queue_evts = st.queue_evts ∧
    st'.queues.length = st.queues.length ∧
    st'.config_generation = st.config_generation ∧
    st'.mem = st.mem ∧
    countActivate st'.device_calls = countActivate st.device_calls := by
  rcases write_reg_eq_cases h with
    ⟨_, e⟩ | ⟨_, e⟩ | ⟨_, e⟩ | ⟨_, e⟩ | ⟨_, e⟩ | ⟨_, e⟩ | ⟨_, e⟩ | ⟨_, e⟩ |
    ⟨_, e⟩ | ⟨_, e⟩ | ⟨_, e⟩ | ⟨_, e⟩ | ⟨_, e⟩ | ⟨_, e⟩ <;>
  subst e <;>
  simp [with_queue_mut_frame st _, MmioDevice.wrFeaturesSelect,
    MmioDevice.wrAckFeatures, MmioDevice.wrAckedFeaturesSelect,
    MmioDevice.wrQueueSelect, MmioDevice.wrInterruptAck, MmioDevice.wrDriverStatus]

theorem write_recognised {st st' : MmioDevice} {off : Nat} {data : List Nat}
    (hlen : data.length = 4) (h : st.write_reg off (le32Read data) = some st') :
    st.write off data = st'.check_activation := by
  unfold MmioDevice.write
  rw [if_pos ⟨write_reg_offset_le h, hlen⟩, h]

theorem check_activation_frame (st : MmioDevice) :
    st.check_activation.device = st.device ∧
    st.check_activation.features_select = st.features_select ∧
    st.check_activation.acked_features_select = st.acked_features_select ∧
    st.check_activation.queue_select = st.queue_select ∧
    st.check_activation.interrupt_status = st.interrupt_status ∧
    st.check_activation.driver_status = st.driver_status ∧
    st.check_activation.config_generation = st.config_generation ∧
    st.check_activation.queues = st.queues := by
  unfold MmioDevice.check_activation
  repeat' split
  all_goals simp

theorem check_activation_of_activated {st : MmioDevice}
    (h : st.device_activated = true) : st.check_activation = st := by
  unfold MmioDevice.check_activation
  rw [h]
  simp

theorem check_activation_inv {st : MmioDevice} (h : MmioInv st) :
    MmioInv st.check_activation := by
  by_cases ha : st.device_activated = true
  · rw [check_activation_of_activated ha]; exact h
  have ha' : st.device_activated = false := by
    cases hb : st.device_activated
    · rfl
    · exact absurd hb ha
  unfold MmioDevice.check_activation
  by_cases hc : (!st.device_activated && st.is_driver_ready && st.are_queues_valid) = true
  · rw [if_pos hc]
    cases hie : st.interrupt_evt with
    | none => exact h
    | some ievt =>
      cases hm : st.mem with
      | none =>
        exfalso
        have hv : st.are_queues_valid = false := by
          unfold MmioDevice.are_queues_valid; rw [hm]
        rw [hv] at hc
        simp at hc
      | some m =>
        have h0 : countActivate st.device_calls = 0 := (h.1 ha').2
        constructor
        · intro hfa
          exact absurd hfa (by simp)
        · intro _
          exact ⟨rfl, rfl, rfl, by simp [h0]⟩
  · rw [if_neg hc]; exact h

theorem write_reg_inv {st st' : MmioDevice} {off v : Nat}
    (hw : st.write_reg off v = some st') (h : MmioInv st) : MmioInv st' := by
  obtain ⟨_, hact, hie, hqe, hql, _, hm, hcnt⟩ := write_reg_frame hw
  constructor
  · intro hfa
    rw [hact] at hfa
    obtain ⟨hlen, hcnt0⟩ := h.1 hfa
    exact ⟨by rw [hql, hqe]; exact hlen, by rw [hcnt]; exact hcnt0⟩
  · intro hta
    rw [hact] at hta
    obtain ⟨hm0, hie0, hqe0, hcnt1⟩ := h.2 hta
    exact ⟨by rw [hm]; exact hm0, by rw [hie]; exact hie0,
      by rw [hqe]; exact hqe0, by rw [hcnt]; exact hcnt1⟩

theorem write_inv (st : MmioDevice) (off : Nat) (data : List Nat)
    (h : MmioInv st) : MmioInv (st.write off data) := by
  unfold MmioDevice.write
  by_cases h1 : off ≤ 0xff ∧ data.length = 4
  · rw [if_pos h1]
    cases hw : st.write_reg off (le32Read data) with
    | none => exact h
    | some st' => exact check_activation_inv (write_reg_inv hw h)
  · rw [if_neg h1]
    by_cases h2 : 0x100 ≤ off ∧ off ≤ 0xfff
    · rw [if_pos h2]
      constructor
      · intro hfa
        obtain ⟨hlen, hcnt0⟩ := h.1 hfa
        exact ⟨hlen, by simp [hcnt0]⟩
      · intro hta
        obtain ⟨hm0, hie0, hqe0, hcnt1⟩ := h.2 hta
        exact ⟨hm0, hie0, hqe0, by simp [hcnt1]⟩
    · rw [if_neg h2]; exact h

theorem step_inv (st : MmioDevice) (op : Op) (h : MmioInv st) :
    MmioInv (st.step op) := by
  cases op with
  | read _ _ => exact h
  | write off data => exact write_inv st off data h

theorem run_inv (st : MmioDevice) (ops : List Op) (h : MmioInv st) :
    MmioInv (st.run ops) := by
  induction ops generalizing st with
  | nil => exact h
  | cons op ops ih => exact ih _ (step_inv st op h)

theorem new_inv (mem : GuestMemory) (device : VirtioDevice) :
    MmioInv (MmioDevice.new mem device) := by
  constructor
  · intro _
    exact ⟨by simp [MmioDevice.new], rfl⟩
  · intro hta
    exact absurd hta (by simp [MmioDevice.new])

theorem write_activated_mono (st : MmioDevice) (off : Nat) (data : List Nat)
    (h : st.device_activated = true) : (st.write off data).device_activated = true := by
  unfold MmioDevice.write
  by_cases h1 : off ≤ 0xff ∧ data.length = 4
  · rw [if_pos h1]
    cases hw : st.write_reg off (le32Read data) with
    | none => exact h
    | some st' =>
      show st'.check_activation.device_activated = true
      have hact := (write_reg_frame hw).2.1
      rw [check_activation_of_activated (by rw [hact]; exact h)]
      rw [hact]; exact h
  · rw [if_neg h1]
    by_cases h2 : 0x100 ≤ off ∧ off ≤ 0xfff
    · rw [if_pos h2]; exact h
    · rw [if_neg h2]; exact h

theorem step_activated_mono (st : MmioDevice) (op : Op)
    (h : st.device_activated = true) : (st.step op).device_activated = true := by
  cases op with
  | read _ _ => exact h
  | write off data => exact write_activated_mono st off data h

theorem run_activated_mono (st : MmioDevice) (ops : List Op)
    (h : st.device_activated = true) : (st.run ops).device_activated = true := by
  induction ops generalizing st with
  | nil => exact h
  | cons op ops ih => exact ih _ (step_activated_mono st op h)

theorem is_driver_ready_of_status {st : MmioDevice} (h : st.driver_status = 0x0f) :
    st.is_driver_ready = true := by
  simp [MmioDevice.is_driver_ready, h, DEVICE_ACKNOWLEDGE, DEVICE_DRIVER,
    DEVICE_DRIVER_OK, DEVICE_FEATURES_OK, DEVICE_FAILED]
  decide

/-- Claim C1: for every 4-byte write to a recognised register in `0x00..=0xff`
after which the transport is not yet activated, `driver_status` equals exactly
`0x0f`, every queue descriptor is valid against the still-held guest memory,
and `mem` and `interrupt_evt` are still present, the transport calls
`device.activate` exactly once, passing the moved `mem` and `interrupt_evt`,
a clone of `interrupt_status`, a clone of `queues`, and all of `queue_evts`
(leaving `queue_evts` empty), and sets `device_activated` to `true`.  Here
`st'` is the intermediate state after the register mutation and before the
activation check. -/
theorem mmio_write_activates (st st' : MmioDevice) (offset : Nat)
    (data : List Nat) (m : GuestMemory) (e : EventFd)
    (hlen : data.length = 4)
    (hreg : st.write_reg offset (le32Read data) = some st')
    (hact : st.device_activated = false)
    (hds : st'.driver_status = 0x0f)
    (hqv : st'.are_queues_valid = true)
    (hm : st'.mem = some m) (he : st'.interrupt_evt = some e) :
    st.write offset data =
      { st' with
        device_calls := DeviceCall.activate m e st'.interrupt_status
          st'.queues st'.queue_evts :: st'.device_calls
        device_activated := true
        interrupt_evt := none
        mem := none
        queue_evts := [] } ∧
    countActivate st'.device_calls = countActivate st.device_calls := by
  have hfr := write_reg_frame hreg
  have hact' : st'.device_activated = false := by rw [hfr.2.1]; exact hact
  refine ⟨?_, hfr.2.2.2.2.2.2.2⟩
  rw [write_recognised hlen hreg]
  unfold MmioDevice.check_activation
  rw [if_pos (by rw [hact', is_driver_ready_of_status hds, hqv]; rfl)]
  rw [he, hm]

theorem mmio_write_activates_witness :
    ([0x0f, 0, 0, 0] : List Nat).length = 4 ∧
    readyState.write_reg 0x70 (le32Read [0x0f, 0, 0, 0]) = some readyStateOk ∧
    readyState.device_activated = false ∧
    readyStateOk.driver_status = 0x0f ∧
    readyStateOk.are_queues_valid = true ∧
    readyStateOk.mem = some sampleMem ∧
    readyStateOk.interrupt_evt = some ⟨1⟩ ∧
    (readyState.write 0x70 [0x0f, 0, 0, 0] =
      { readyStateOk with
        device_calls := DeviceCall.activate sampleMem ⟨1⟩ readyStateOk.interrupt_status
          readyStateOk.queues readyStateOk.queue_evts :: readyStateOk.device_calls
        device_activated := true
        interrupt_evt := none
        mem := none
        queue_evts := [] } ∧
     countActivate readyStateOk.device_calls = countActivate readyState.device_calls) :=
  ⟨rfl, rfl, rfl, rfl, rfl, rfl, rfl,
    mmio_write_activates readyState readyStateOk 0x70 [0x0f, 0, 0, 0]
      sampleMem ⟨1⟩ rfl rfl rfl rfl rfl rfl rfl⟩

/-- Claim C2: in every state reachable from `MmioDevice::new` by any sequence
of `read`/`write` calls, the invariant holds (before activation
`queues.len() == queue_evts.len()` and no `activate` call has been made;
once activated, `mem` and `interrupt_evt` are absent, `queue_evts` is empty
and exactly one `activate` call has been made, so the activation predicate
can never re-fire), and `device_activated` never goes back from `true` to
`false` under any further sequence of calls (with exactly one `activate`
call ever, this is the once-only latch). -/
theorem mmio_reachable_invariant (mem : GuestMemory) (device : VirtioDevice)
    (ops more : List Op) :
    MmioInv ((MmioDevice.new mem device).run ops) ∧
    (((MmioDevice.new mem device).run ops).device_activated = true →
      ((((MmioDevice.new mem device).run ops)).run more).device_activated = true) :=
  ⟨run_inv _ ops (new_inv mem device),
   fun h => run_activated_mono _ more h⟩

theorem mmio_reachable_invariant_witness :
    MmioInv ((MmioDevice.new sampleMem sampleDevice).run sampleOps) ∧
    (((MmioDevice.new sampleMem sampleDevice).run sampleOps).device_activated = true →
      ((((MmioDevice.new sampleMem sampleDevice).run sampleOps)).run []).device_activated = true) :=
  mmio_reachable_invariant sampleMem sampleDevice sampleOps []

/-- Claim C8: a 4-byte write of 0 to offset 0x070 is accepted
(`driver_status` becomes 0) and leaves `device_activated` and every other
transport field except `driver_status` unchanged; in particular it does not
reset the activation latch. -/
theorem mmio_status_zero_write (st : MmioDevice) :
    st.write 0x70 (le32Write 0) = { st with driver_status := 0 } := by
  have hreg : st.write_reg 0x70 (le32Read (le32Write 0)) =
      some (st.wrDriverStatus 0) := rfl
  rw [write_recognised (by rfl) hreg]
  have hready : (st.wrDriverStatus 0).is_driver_ready = false := by
    simp [MmioDevice.is_driver_ready, MmioDevice.wrDriverStatus,
      DEVICE_ACKNOWLEDGE, DEVICE_DRIVER, DEVICE_DRIVER_OK, DEVICE_FEATURES_OK]
  unfold MmioDevice.check_activation
  rw [hready]
  simp [MmioDevice.wrDriverStatus]

theorem write_config_generation (st : MmioDevice) (off : Nat) (data : List Nat) :
    (st.write off data).config_generation = st.config_generation := by
  unfold MmioDevice.write
  by_cases h1 : off ≤ 0xff ∧ data.length = 4
  · rw [if_pos h1]
    cases hw : st.write_reg off (le32Read data) with
    | none => rfl
    | some st' =>
      show st'.check_activation.config_generation = st.config_generation
      rw [(check_activation_frame st').2.2.2.2.2.2.1]
      exact (write_reg_frame hw).2.2.2.2.2.1
  · rw [if_neg h1]
    by_cases h2 : 0x100 ≤ off ∧ off ≤ 0xfff
    · rw [if_pos h2]
    · rw [if_neg h2]

theorem run_config_generation (st : MmioDevice) (ops : List Op) :
    (st.run ops).config_generation = st.config_generation := by
  induction ops generalizing st with
  | nil => rfl
  | cons op ops ih =>
    refine (ih (st.step op)).trans ?_
    cases op with
    | read _ _ => rfl
    | write off data => exact write_config_generation st off data

/-- Claim C10: in every state reachable from `MmioDevice::new` by bus
accesses, `config_generation` equals 0 — no transport operation ever
modifies it — so a 4-byte read of offset 0x0fc always returns the
little-endian encoding of 0. -/
theorem mmio_config_generation_zero (mem : GuestMemory) (device : VirtioDevice)
    (ops : List Op) (data : List Nat) (hd : data.length = 4) :
    ((MmioDevice.new mem device).run ops).config_generation = 0 ∧
    ((MmioDevice.new mem device).run ops).read 0xfc data = le32Write 0 := by
  have h0 : ((MmioDevice.new mem device).run ops).config_generation = 0 :=
    (run_config_generation _ ops).trans rfl
  refine ⟨h0, ?_⟩
  unfold MmioDevice.read
  rw [if_pos ⟨by omega, hd⟩]
  have hr : ((MmioDevice.new mem device).run ops).read_reg 0xfc =
      some ((MmioDevice.new mem device).run ops).config_generation := rfl
  rw [hr, h0]

theorem mmio_config_generation_zero_witness :
    ([0, 0, 0, 0] : List Nat).length = 4 ∧
    (((MmioDevice.new sampleMem sampleDevice).run []).config_generation = 0 ∧
     ((MmioDevice.new sampleMem sampleDevice).run []).read 0xfc [0, 0, 0, 0] =
       le32Write 0) :=
  ⟨rfl, mmio_config_generation_zero sampleMem sampleDevice [] [0, 0, 0, 0] rfl⟩

/-- Claim C3 counterexample: a 2-byte read at offset 0x00 on a fresh
transport returns the caller's buffer unchanged (`[7, 7]`), not a
zero-initialised buffer, refuting "reads return a zero-initialised
buffer". -/
theorem mmio_short_read_not_zeroed :
    ¬ ((MmioDevice.new sampleMem sampleDevice).read 0x00 [7, 7] = [0, 0]) := by
  decide

/-- Claim C3 as amended: for every access in the register region
`0x00..=0xff` whose buffer size is not 4 bytes, the access is ignored: a
read leaves the caller's buffer unchanged and a write is a no-op, with no
transport state change and no backend interaction. -/
theorem mmio_wrong_width_ignored (st : MmioDevice) (off : Nat) (data : List Nat)
    (hoff : off ≤ 0xff) (hlen : data.length ≠ 4) :
    st.read off data = data ∧ st.write off data = st := by
  have hn1 : ¬(off ≤ 0xff ∧ data.length = 4) := fun h => hlen h.2
  have hn2 : ¬(0x100 ≤ off ∧ off ≤ 0xfff) := by intro h; omega
  constructor
  · unfold MmioDevice.read
    rw [if_neg hn1, if_neg hn2]
  · unfold MmioDevice.write
    rw [if_neg hn1, if_neg hn2]

theorem mmio_wrong_width_ignored_witness :
    (0x00 : Nat) ≤ 0xff ∧ ([7, 7] : List Nat).length ≠ 4 ∧
    ((MmioDevice.new sampleMem sampleDevice).read 0x00 [7, 7] = [7, 7] ∧
     (MmioDevice.new sampleMem sampleDevice).write 0x00 [7, 7] =
       MmioDevice.new sampleMem sampleDevice) :=
  ⟨by decide, by decide,
    mmio_wrong_width_ignored (MmioDevice.new sampleMem sampleDevice) 0x00 [7, 7]
      (by decide) (by decide)⟩

theorem le32_roundtrip {v : Nat} (h : v < 2 ^ 32) : le32Read (le32Write v) = v := by
  simp only [le32Read, le32Write]
  omega

theorem land_mask64_eq_mask32 {s m : Nat} (hs : s < 2 ^ 32) :
    s &&& (0xffffffffffffffff ^^^ m) = s &&& (2 ^ 32 - 1 ^^^ m) := by
  have h64 : (0xffffffffffffffff : Nat) = 2 ^ 64 - 1 := by norm_num
  rw [h64]
  apply Nat.eq_of_testBit_eq
  intro i
  simp only [Nat.testBit_and, Nat.testBit_xor, Nat.testBit_two_pow_sub_one]
  by_cases hi : i < 32
  · have hi64 : i < 64 := by omega
    simp [hi, hi64]
  · have hz : s.testBit i = false :=
      Nat.testBit_lt_two_pow
        (lt_of_lt_of_le hs (Nat.pow_le_pow_right (by norm_num) (by omega)))
    simp [hz]

/-- Claim C4: for every 32-bit interrupt-status value `s` and bitmask `m`,
after a 4-byte little-endian write of `m` to offset 0x064 the interrupt
status equals `s &&& ~m` (bits set in `m` are cleared, every other bit
unaffected), and a subsequent 4-byte read of offset 0x060 returns
`s &&& ~m` little-endian. -/
theorem mmio_interrupt_ack (st : MmioDevice) (s m : Nat) (data : List Nat)
    (hs : st.interrupt_status = s) (hs32 : s < 2 ^ 32) (hm32 : m < 2 ^ 32)
    (hd : data.length = 4) :
    (st.write 0x64 (le32Write m)).interrupt_status = s &&& (2 ^ 32 - 1 ^^^ m) ∧
    (st.write 0x64 (le32Write m)).read 0x60 data =
      le32Write (s &&& (2 ^ 32 - 1 ^^^ m)) := by
  have hv : le32Read (le32Write m) = m := le32_roundtrip hm32
  have hreg : st.write_reg 0x64 (le32Read (le32Write m)) =
      some (st.wrInterruptAck (le32Read (le32Write m))) := rfl
  have hw : st.write 0x64 (le32Write m) =
      (st.wrInterruptAck m).check_activation := by
    rw [write_recognised (by rfl) hreg, hv]
  have hst : (st.wrInterruptAck m).check_activation.interrupt_status =
      s &&& (2 ^ 32 - 1 ^^^ m) := by
    rw [(check_activation_frame _).2.2.2.2.1]
    show st.interrupt_status &&& (0xffffffffffffffff ^^^ m) = _
    rw [hs, land_mask64_eq_mask32 hs32]
  constructor
  · rw [hw, hst]
  · rw [hw]
    unfold MmioDevice.read
    rw [if_pos ⟨by omega, hd⟩]
    have hr : (st.wrInterruptAck m).check_activation.read_reg 0x60 =
        some ((st.wrInterruptAck m).check_activation.interrupt_status % 4294967296) :=
      rfl
    rw [hr, hst]
    have hlt : s &&& (2 ^ 32 - 1 ^^^ m) < 4294967296 :=
      lt_of_le_of_lt Nat.and_le_left hs32
    rw [Nat.mod_eq_of_lt hlt]

theorem mmio_interrupt_ack_witness :
    intrState.interrupt_status = 3 ∧ (3 : Nat) < 2 ^ 32 ∧ (1 : Nat) < 2 ^ 32 ∧
    ([0, 0, 0, 0] : List Nat).length = 4 ∧
    ((intrState.write 0x64 (le32Write 1)).interrupt_status =
        3 &&& (2 ^ 32 - 1 ^^^ 1) ∧
      (intrState.write 0x64 (le32Write 1)).read 0x60 [0, 0, 0, 0] =
        le32Write (3 &&& (2 ^ 32 - 1 ^^^ 1))) :=
  ⟨rfl, by decide, by decide, rfl,
    mmio_interrupt_ack intrState 3 1 [0, 0, 0, 0] rfl (by decide) (by decide) rfl⟩

/-- Claim C5: for every page value `p`, a 4-byte write of `p` to offset 0x014
followed by a 4-byte read of offset 0x010 yields `device.features(p)`
bitwise-OR'd with 1 when `p == 1` and with 0 otherwise, little-endian. -/
theorem mmio_features_roundtrip (st : MmioDevice) (p : Nat) (data : List Nat)
    (hp : p < 2 ^ 32) (hd : data.length = 4) :
    (st.write 0x14 (le32Write p)).read 0x10 data =
      le32Write (st.device.features p ||| (if p = 1 then 0x1 else 0x0)) := by
  have hv : le32Read (le32Write p) = p := le32_roundtrip hp
  have hreg : st.write_reg 0x14 (le32Read (le32Write p)) =
      some (st.wrFeaturesSelect (le32Read (le32Write p))) := rfl
  rw [write_recognised (by rfl) hreg, hv]
  have hfs : (st.wrFeaturesSelect p).check_activation.features_select = p := by
    rw [(check_activation_frame _).2.1]; rfl
  have hdev : (st.wrFeaturesSelect p).check_activation.device = st.device := by
    rw [(check_activation_frame _).1]; rfl
  unfold MmioDevice.read
  rw [if_pos ⟨by omega, hd⟩]
  have hr : (st.wrFeaturesSelect p).check_activation.read_reg 0x10 =
      some ((st.wrFeaturesSelect p).check_activation.device.features
          (st.wrFeaturesSelect p).check_activation.features_select |||
        (if (st.wrFeaturesSelect p).check_activation.features_select = 1
          then 0x1 else 0x0)) := rfl
  rw [hr, hfs, hdev]

theorem mmio_features_roundtrip_witness :
    (2 : Nat) < 2 ^ 32 ∧ ([0, 0, 0, 0] : List Nat).length = 4 ∧
    ((MmioDevice.new sampleMem sampleDevice).write 0x14 (le32Write 2)).read 0x10
        [0, 0, 0, 0] =
      le32Write (sampleDevice.features 2 ||| (if (2 : Nat) = 1 then 0x1 else 0x0)) :=
  ⟨by decide, rfl,
    mmio_features_roundtrip (MmioDevice.new sampleMem sampleDevice) 2 [0, 0, 0, 0]
      (by decide) rfl⟩

theorem with_queue_mut_oob {st : MmioDevice}
    (h : st.queues.length ≤ st.queue_select) (f : Queue → Queue) :
    st.with_queue_mut f = st := by
  unfold MmioDevice.with_queue_mut
  rw [List.getElem?_eq_none h]

theorem with_queue_oob {α : Type} {st : MmioDevice}
    (h : st.queues.length ≤ st.queue_select) (d : α) (f : Queue → α) :
    st.with_queue d f = d := by
  unfold MmioDevice.with_queue
  rw [List.getElem?_eq_none h]

theorem write_queues_oob (st : MmioDevice) (off : Nat) (data : List Nat)
    (hsel : st.queues.length ≤ st.queue_select) :
    (st.write off data).queues = st.queues := by
  unfold MmioDevice.write
  by_cases h1 : off ≤ 0xff ∧ data.length = 4
  · rw [if_pos h1]
    cases hw : st.write_reg off (le32Read data) with
    | none => rfl
    | some st' =>
      show st'.check_activation.queues = st.queues
      rw [(check_activation_frame st').2.2.2.2.2.2.2]
      rcases write_reg_eq_cases hw with
        ⟨_, e⟩ | ⟨_, e⟩ | ⟨_, e⟩ | ⟨_, e⟩ | ⟨_, e⟩ | ⟨_, e⟩ | ⟨_, e⟩ | ⟨_, e⟩ |
        ⟨_, e⟩ | ⟨_, e⟩ | ⟨_, e⟩ | ⟨_, e⟩ | ⟨_, e⟩ | ⟨_, e⟩ <;>
      subst e <;>
      first
        | rfl
        | rw [with_queue_mut_oob hsel]
  · rw [if_neg h1]
    by_cases h2 : 0x100 ≤ off ∧ off ≤ 0xfff
    · rw [if_pos h2]
    · rw [if_neg h2]

/-- Claim C6: for every value of `queue_select` greater than or equal to
`queues.len()`, every per-queue register access is total and non-faulting:
4-byte reads of 0x034 and 0x044 return 0, and 4-byte writes to 0x038, 0x044,
0x080, 0x084, 0x090, 0x094, 0x0a0 and 0x0a4 are no-ops on the queue array
(no out-of-bounds access can occur: the embedding is total by
construction). -/
theorem mmio_queue_select_oob (st : MmioDevice) (data : List Nat)
    (hd : data.length = 4) (hsel : st.queues.length ≤ st.queue_select) :
    st.read 0x34 data = le32Write 0 ∧
    st.read 0x44 data = le32Write 0 ∧
    ∀ off ∈ ([0x38, 0x44, 0x80, 0x84, 0x90, 0x94, 0xa0, 0xa4] : List Nat),
      (st.write off data).queues = st.queues := by
  refine ⟨?_, ?_, ?_⟩
  · unfold MmioDevice.read
    rw [if_pos ⟨by omega, hd⟩]
    have hr : st.read_reg 0x34 = some (st.with_queue 0 (fun q => q.max_size)) := rfl
    rw [hr, with_queue_oob hsel]
  · unfold MmioDevice.read
    rw [if_pos ⟨by omega, hd⟩]
    have hr : st.read_reg 0x44 =
        some (st.with_queue 0 (fun q => if q.ready then 1 else 0)) := rfl
    rw [hr, with_queue_oob hsel]
  · intro off hoff
    exact write_queues_oob st off data hsel

theorem mmio_queue_select_oob_witness :
    ([0, 0, 0, 0] : List Nat).length = 4 ∧
    oobState.queues.length ≤ oobState.queue_select ∧
    oobState.read 0x34 [0, 0, 0, 0] = le32Write 0 ∧
    (oobState.write 0x38 [0, 0, 0, 0]).queues = oobState.queues :=
  ⟨rfl, by decide,
    (mmio_queue_select_oob oobState [0, 0, 0, 0] rfl (by decide)).1,
    (mmio_queue_select_oob oobState [0, 0, 0, 0] rfl (by decide)).2.2 0x38
      (by decide)⟩

/-- Claim C7: after `device_activated` is true, a 4-byte write to any queue
register (0x038 size, 0x044 ready, 0x080-0x0a4 ring address halves) with a
valid `queue_select` is still applied to the transport's own queue
descriptor record, and nothing else changes: in particular `device_calls`
is unchanged, so no further `device.activate` call happens and the queue
snapshot recorded at activation is untouched. -/
theorem mmio_post_activation_queue_writes (st : MmioDevice) (data : List Nat)
    (q : Queue)
    (hact : st.device_activated = true)
    (hd : data.length = 4)
    (hq : st.queues[st.queue_select]? = some q) :
    ∀ off ∈ ([0x38, 0x44, 0x80, 0x84, 0x90, 0x94, 0xa0, 0xa4] : List Nat),
      st.write off data =
        { st with
          queues := st.queues.set st.queue_select
            (queueRegUpdate off (le32Read data) q) } := by
  have hwq : ∀ f : Queue → Queue,
      st.with_queue_mut f =
        { st with queues := st.queues.set st.queue_select (f q) } := by
    intro f
    unfold MmioDevice.with_queue_mut
    rw [hq]
  have hca : ∀ f : Queue → Queue,
      (st.with_queue_mut f).check_activation = st.with_queue_mut f := by
    intro f
    apply check_activation_of_activated
    rw [(with_queue_mut_frame st f).2.2.1]
    exact hact
  have hgen : ∀ (o : Nat) (f : Queue → Queue),
      st.write_reg o (le32Read data) = some (st.with_queue_mut f) →
      st.write o data =
        { st with queues := st.queues.set st.queue_select (f q) } := by
    intro o f hf
    rw [write_recognised hd hf, hca f, hwq f]
  intro off hoff
  fin_cases hoff
  · exact hgen 0x38 _ rfl
  · exact hgen 0x44 _ rfl
  · exact hgen 0x80 _ rfl
  · exact hgen 0x84 _ rfl
  · exact hgen 0x90 _ rfl
  · exact hgen 0x94 _ rfl
  · exact hgen 0xa0 _ rfl
  · exact hgen 0xa4 _ rfl

theorem mmio_post_activation_queue_writes_witness :
    postActState.device_activated = true ∧
    ([1, 0, 0, 0] : List Nat).length = 4 ∧
    postActState.queues[postActState.queue_select]? =
      some ⟨16, 16, true, 0x1000, 0x2000, 0x3000⟩ ∧
    postActState.write 0x38 [1, 0, 0, 0] =
      { postActState with
        queues := postActState.queues.set postActState.queue_select
          (queueRegUpdate 0x38 (le32Read [1, 0, 0, 0])
            ⟨16, 16, true, 0x1000, 0x2000, 0x3000⟩) } :=
  ⟨rfl, rfl, rfl,
    mmio_post_activation_queue_writes postActState [1, 0, 0, 0]
      ⟨16, 16, true, 0x1000, 0x2000, 0x3000⟩ rfl rfl rfl 0x38 (by decide)⟩

/-- Claim C9: modelling the kernel eventfd as a 64-bit counter, `write(v)`
adds `v` to the counter and `read()` returns the accumulated value and
resets the counter to zero: for all `a`, `b` with `a + b ≤ 2^64 - 2` and
`0 < a + b`, after `write(a)` then `write(b)` starting from 0, `read()`
returns `a + b` and leaves the counter at 0 for any further query. -/
theorem eventfd_counter_accumulates (a b : Nat)
    (hle : a + b ≤ 2 ^ 64 - 2) (hpos : 0 < a + b) :
    EventFdCounter.write 0 a = some a ∧
    EventFdCounter.write a b = some (a + b) ∧
    EventFdCounter.read (a + b) = some (a + b, 0) := by
  refine ⟨?_, ?_, ?_⟩
  · unfold EventFdCounter.write
    rw [if_pos (by omega : 0 + a ≤ 2 ^ 64 - 2)]
    rw [Nat.zero_add]
  · unfold EventFdCounter.write
    rw [if_pos hle]
  · unfold EventFdCounter.read
    rw [if_pos hpos]

theorem eventfd_counter_accumulates_witness :
    (55 : Nat) + 868 ≤ 2 ^ 64 - 2 ∧ (0 : Nat) < 55 + 868 ∧
    (EventFdCounter.write 0 55 = some 55 ∧
     EventFdCounter.write 55 868 = some (55 + 868) ∧
     EventFdCounter.read (55 + 868) = some (55 + 868, 0)) :=
  ⟨by decide, by decide, eventfd_counter_accumulates 55 868 (by decide) (by decide)⟩
